import Mathlib

/-!
Shallow embedding of `src/lib/munkey-rpc/build.py` (the proto build wrapper of
the munkey repository) and verification of its specified properties.

The script's relevant Python primitives are modelled as follows:

* `pathlib.Path` values become `PyPath`: an absoluteness flag plus the list of
  name components.  POSIX rendering is used for `str(path)`; `resolve()` is
  modelled as "prepend the current working directory when relative" (the
  script never builds `..`/`.` components and symlinks are out of scope, so
  normalisation is the identity on every path the script constructs).
* `os.name` is a `String` parameter (`"nt"` on Windows-family hosts).
* `Path.mkdir(parents, exist_ok)` becomes `mkdirFS`, a pure transition on an
  explicit filesystem (the set of existing directories, each an absolute
  component list).
* The process-level effects of `main` (directory creation, the
  `subprocess.check_call` invocation, `print`) are recorded as a trace of
  `Event`s; exceptions that `main` does not catch are returned in the `exc`
  field of the run result.  The ambient world (filesystem contents, whether
  directory creation is permitted, how the spawned compiler behaves) is an
  `Env` parameter.
-/

set_option autoImplicit false

namespace MunkeyBuild

/-- Model of a `pathlib.Path`: whether the path is absolute, and its name
components in order.  Rendered POSIX-style by `strOfPath`. -/
structure PyPath where
  isAbs : Bool
  parts : List String
  deriving DecidableEq, Repr

/-- Model of `Path.joinpath` for a single relative name segment (the only way
the script ever joins paths). -/
def joinpath (p : PyPath) (seg : String) : PyPath :=
  PyPath.mk p.isAbs (p.parts ++ [seg])

/-- Model of `Path.resolve()`: a relative path is made absolute against the
current working directory `cwd` (given as an absolute component list); an
absolute path is returned unchanged.  Symlink resolution and `..`/`.`
normalisation are identities on every path the script constructs. -/
def resolve (cwd : List String) (p : PyPath) : PyPath :=
  if p.isAbs then p else PyPath.mk true (cwd ++ p.parts)

/-- Index of the last occurrence of `c` in the list, if any. -/
def lastIdxOf (c : Char) : List Char → Option Nat
  | [] => none
  | x :: xs =>
    match lastIdxOf c xs with
    | some i => some (i + 1)
    | none => if x = c then some 0 else none

/-- Model of `PurePath.stem` semantics on a single name: everything before the
final dot, provided that dot is neither the leading nor the trailing character
(pathlib's rule for what counts as a suffix); otherwise the whole name. -/
def py_stem (name : String) : String :=
  match lastIdxOf '.' name.data with
  | some i =>
    if 0 < i ∧ i + 1 < name.data.length then String.mk (name.data.take i) else name
  | none => name

/-- Model of `Path.with_suffix(suf)`: replace (or, when the final component
has no suffix, append) the suffix of the final component.  A path with no
components is returned unchanged (the script never produces one). -/
def with_suffix (p : PyPath) (suf : String) : PyPath :=
  if p.parts.isEmpty then p
  else PyPath.mk p.isAbs (p.parts.dropLast ++ [py_stem (p.parts.getLastD "") ++ suf])

/-- POSIX-style `str(path)`. -/
def strOfPath (p : PyPath) : String :=
  (if p.isAbs then "/" else "") ++ String.intercalate "/" p.parts

/-- Final name component of a path (`Path.name`), or `""` for an empty path. -/
def lastNameOf (p : PyPath) : String :=
  p.parts.getLastD ""

/-- Embedding of `extend_paths` from `build.py`:
on `os.name == "nt"` every path gets its suffix replaced by `.cmd` and is then
resolved; on every other host the input list is returned unchanged. -/
def extend_paths (osName : String) (cwd : List String) (path_list : List PyPath) :
    List PyPath :=
  if osName = "nt" then
    path_list.map (fun win_path => resolve cwd (with_suffix win_path ".cmd"))
  else
    path_list

/-- The values `main` computes before performing any effect: the (unused)
compiler executable identifier `exe`, the plugin/source/output paths after
platform adaptation, and the argument list handed to `subprocess.check_call`. -/
structure Config where
  exe : String
  root_path : PyPath
  ts_plugin_path : PyPath
  grpc_plugin_path : PyPath
  src_path : PyPath
  ts_path : PyPath
  argv : List String
  deriving DecidableEq, Repr

/-- Embedding of the pure prefix of `main` (lines 7-33 of `build.py`):
path construction, platform adaptation, and assembly of the `check_call`
argument list.  `out` is the parsed `--out` argument as a path and `cwd` the
current working directory used by `resolve()`. -/
def computeConfig (osName : String) (cwd : List String) (out : PyPath) : Config :=
  let exe0 := "grpc_tools_node_protoc"
  let root_path := out
  let node_modules := joinpath root_path "node_modules"
  let ts_plugin_path0 := joinpath (joinpath node_modules ".bin") "protoc-gen-ts"
  let grpc_plugin_path0 :=
    joinpath (joinpath node_modules ".bin") "grpc_tools_node_protoc_plugin"
  let src_path := resolve cwd (joinpath root_path "src")
  let out_path := joinpath root_path "bin"
  let ts_path := resolve cwd (joinpath out_path "ts")
  let extended := extend_paths osName cwd [ts_plugin_path0, grpc_plugin_path0]
  let ts_plugin_path := extended.getD 0 ts_plugin_path0
  let grpc_plugin_path := extended.getD 1 grpc_plugin_path0
  let exe := if osName = "nt" then exe0 ++ ".cmd" else exe0
  let argv := [
    "protoc",
    "--plugin=protoc-gen-ts=" ++ strOfPath ts_plugin_path,
    "--plugin=protoc-gen-grpc=" ++ strOfPath grpc_plugin_path,
    "--ts_out=grpc_js:" ++ strOfPath ts_path,
    "--js_out=import_style=commonjs:" ++ strOfPath ts_path,
    "--grpc_out=grpc_js:" ++ strOfPath ts_path,
    "-I" ++ strOfPath src_path,
    "munkey.proto"]
  Config.mk exe root_path ts_plugin_path grpc_plugin_path src_path ts_path argv

/-- Model of `Path.mkdir(parents, exist_ok)` as a pure transition on the set of
existing directories (`fs`, each directory an absolute component list).
If the directory exists already it is an error unless `exist_ok`; with
`parents` every missing ancestor is created alongside the directory; without
`parents` the parent must already exist.  `Except.error ()` stands for the
`FileExistsError`/`FileNotFoundError` the Python call would raise. -/
def mkdirFS (fs : List (List String)) (p : List String) (parents exist_ok : Bool) :
    Except Unit (List (List String)) :=
  if p ∈ fs then
    if exist_ok then Except.ok fs else Except.error ()
  else if parents then
    Except.ok (fs ++ p.inits)
  else if p.dropLast ∈ fs then Except.ok (fs ++ [p]) else Except.error ()

/-- Outcome of the `subprocess.check_call` invocation, chosen by the
environment: the compiler exits 0, exits non-zero (Python raises
`CalledProcessError` with that return code), or spawning fails outright
(Python raises an `OSError` such as `FileNotFoundError`). -/
inductive CallOutcome where
  | ok
  | calledProcessError (returncode : Int)
  | osError
  deriving DecidableEq, Repr

/-- Observable effects `main` performs, in order. -/
inductive Event where
  | mkdir (path : PyPath) (parents exist_ok : Bool)
  | checkCall (argv : List String)
  | print (msg : String)
  deriving DecidableEq, Repr

/-- Exceptions that can escape `main` uncaught: a `PermissionError` (an
`OSError` subclass) from directory creation, or an `OSError` from failing to
spawn the compiler process. -/
inductive PyExc where
  | permissionError
  | osError
  deriving DecidableEq, Repr

/-- The ambient world of one run: host platform, working directory, existing
directories, whether the filesystem permits `main`'s directory creation, and
how the spawned compiler behaves. -/
structure Env where
  osName : String
  cwd : List String
  fs : List (List String)
  mkdirPermitted : Bool
  call : CallOutcome
  deriving DecidableEq, Repr

/-- Result of running `main`: the events performed, the uncaught exception if
one escaped, and the resulting filesystem. -/
structure RunResult where
  trace : List Event
  exc : Option PyExc
  fs : List (List String)
  deriving DecidableEq, Repr

/-- What `print(err)` shows for a `CalledProcessError` (CPython's exact `repr`
of the command list is abstracted to `toString`). -/
def calledProcessErrorMessage (returncode : Int) (cmd : List String) : String :=
  "Command " ++ toString cmd ++ " returned non-zero exit status " ++
    toString returncode ++ "."

/-- Embedding of `main` from `build.py` as a trace semantics.  The pure path
computation is `computeConfig`; then `ts_path.mkdir(exist_ok=True,
parents=True)` runs outside any handler, and `check_call` runs inside
`try ... except CalledProcessError as err: print(err)` — only that exception
type is caught; a spawn failure or a filesystem failure escapes. -/
def main (env : Env) (out : PyPath) : RunResult :=
  let c := computeConfig env.osName env.cwd out
  let mkdirEvent := Event.mkdir c.ts_path true true
  if env.mkdirPermitted then
    match mkdirFS env.fs c.ts_path.parts true true with
    | Except.error _ => RunResult.mk [mkdirEvent] (some PyExc.permissionError) env.fs
    | Except.ok fs' =>
      match env.call with
      | CallOutcome.ok =>
        RunResult.mk [mkdirEvent, Event.checkCall c.argv] none fs'
      | CallOutcome.calledProcessError rc =>
        RunResult.mk
          [mkdirEvent, Event.checkCall c.argv,
            Event.print (calledProcessErrorMessage rc c.argv)] none fs'
      | CallOutcome.osError =>
        RunResult.mk [mkdirEvent, Event.checkCall c.argv] (some PyExc.osError) fs'
  else
    RunResult.mk [mkdirEvent] (some PyExc.permissionError) env.fs

/-- Exit status of the whole script (`if __name__ == "__main__": ... main(args)`):
a normal return from `main` ends the interpreter with status 0; an uncaught
exception makes it exit with status 1. -/
def scriptExitCode (env : Env) (out : PyPath) : Int :=
  match (main env out).exc with
  | none => 0
  | some _ => 1

/-! ### Helper lemmas -/

theorem resolve_isAbs (cwd : List String) (p : PyPath) : (resolve cwd p).isAbs = true := by
  unfold resolve
  split <;> simp_all

theorem with_suffix_concat (b : Bool) (l : List String) (n s : String) :
    with_suffix (PyPath.mk b (l ++ [n])) s = PyPath.mk b (l ++ [py_stem n ++ s]) := by
  simp [with_suffix]

theorem lastNameOf_resolve_concat (cwd : List String) (b : Bool) (l : List String)
    (n : String) : lastNameOf (resolve cwd (PyPath.mk b (l ++ [n]))) = n := by
  unfold resolve lastNameOf
  split <;> simp [← List.append_assoc]

theorem py_stem_ts : py_stem "protoc-gen-ts" = "protoc-gen-ts" := by decide

theorem py_stem_grpc :
    py_stem "grpc_tools_node_protoc_plugin" = "grpc_tools_node_protoc_plugin" := by decide

theorem mkdirFS_parents_exist_ok (fs : List (List String)) (p : List String) :
    mkdirFS fs p true true = Except.ok (if p ∈ fs then fs else fs ++ p.inits) := by
  unfold mkdirFS
  split <;> simp_all

/-! ### Claim theorems -/

/-- C1: the spec claims the subprocess's first argument is the computed
compiler executable identifier (`grpc_tools_node_protoc`, `.cmd`-suffixed on
Windows).  In the code that identifier is computed, platform-suffixed, and
then never used: on every host the first element of the `check_call` list is
the literal `"protoc"`, and the computed identifier occurs nowhere in the
argument list. -/
theorem protoc_literal_invoked_exe_unused :
    (computeConfig "nt" ["home"] (PyPath.mk true ["proj"])).exe =
      "grpc_tools_node_protoc.cmd" ∧
    (computeConfig "posix" ["home"] (PyPath.mk true ["proj"])).exe =
      "grpc_tools_node_protoc" ∧
    (computeConfig "nt" ["home"] (PyPath.mk true ["proj"])).argv.head? = some "protoc" ∧
    (computeConfig "posix" ["home"] (PyPath.mk true ["proj"])).argv.head? = some "protoc" ∧
    (computeConfig "nt" ["home"] (PyPath.mk true ["proj"])).argv.contains
      (computeConfig "nt" ["home"] (PyPath.mk true ["proj"])).exe = false ∧
    (computeConfig "posix" ["home"] (PyPath.mk true ["proj"])).argv.contains
      (computeConfig "posix" ["home"] (PyPath.mk true ["proj"])).exe = false := by
  decide

/-- C4: for every host, working directory and output root, the `check_call`
list is the executable element followed by exactly: the two plugin
registration flags, the three output directives (ts, js, grpc) all pointing
at the same resolved generated path, the include flag pointing at the
resolved source path, and the literal `munkey.proto`, in that fixed order. -/
theorem argv_fixed_shape (osName : String) (cwd : List String) (out : PyPath) :
    (computeConfig osName cwd out).argv.drop 1 =
      ["--plugin=protoc-gen-ts=" ++ strOfPath (computeConfig osName cwd out).ts_plugin_path,
       "--plugin=protoc-gen-grpc=" ++
         strOfPath (computeConfig osName cwd out).grpc_plugin_path,
       "--ts_out=grpc_js:" ++ strOfPath (computeConfig osName cwd out).ts_path,
       "--js_out=import_style=commonjs:" ++
         strOfPath (computeConfig osName cwd out).ts_path,
       "--grpc_out=grpc_js:" ++ strOfPath (computeConfig osName cwd out).ts_path,
       "-I" ++ strOfPath (computeConfig osName cwd out).src_path,
       "munkey.proto"] ∧
    (computeConfig osName cwd out).src_path = resolve cwd (joinpath out "src") ∧
    (computeConfig osName cwd out).ts_path =
      resolve cwd (joinpath (joinpath out "bin") "ts") :=
  ⟨rfl, rfl, rfl⟩

/-- C6: for every output root the computed source path is the resolved form of
`R/src` and the computed generated path is the resolved form of `R/bin/ts`,
and both are absolute. -/
theorem derived_src_and_generated_paths (osName : String) (cwd : List String)
    (out : PyPath) :
    (computeConfig osName cwd out).src_path = resolve cwd (joinpath out "src") ∧
    (computeConfig osName cwd out).ts_path =
      resolve cwd (joinpath (joinpath out "bin") "ts") ∧
    (computeConfig osName cwd out).src_path.isAbs = true ∧
    (computeConfig osName cwd out).ts_path.isAbs = true :=
  ⟨rfl, rfl, resolve_isAbs cwd (joinpath out "src"),
    resolve_isAbs cwd (joinpath (joinpath out "bin") "ts")⟩

/-- C3 counterexample: on a POSIX host with relative output root `proj`, the
TypeScript plugin path handed to the compiler is still relative — the claim
that every path passed is absolute fails at this input. -/
theorem relative_plugin_path_cex :
    (computeConfig "posix" ["home"] (PyPath.mk false ["proj"])).ts_plugin_path.isAbs
      = false ∧
    strOfPath (computeConfig "posix" ["home"] (PyPath.mk false ["proj"])).ts_plugin_path
      = "proj/node_modules/.bin/protoc-gen-ts" ∧
    (computeConfig "posix" ["home"] (PyPath.mk false ["proj"])).argv.contains
      "--plugin=protoc-gen-ts=proj/node_modules/.bin/protoc-gen-ts" = true := by
  decide

/-- C3 amended: the generated-output path and the include/source path are
always absolute; the two plugin paths are absolute on a Windows-family host
(where `extend_paths` resolves them), but on any other host they are passed
as constructed and are absolute exactly when the output root is absolute. -/
theorem absolute_paths_amended (osName : String) (cwd : List String) (out : PyPath) :
    (computeConfig osName cwd out).src_path.isAbs = true ∧
    (computeConfig osName cwd out).ts_path.isAbs = true ∧
    (osName = "nt" →
      (computeConfig osName cwd out).ts_plugin_path.isAbs = true ∧
      (computeConfig osName cwd out).grpc_plugin_path.isAbs = true) ∧
    (osName ≠ "nt" →
      (computeConfig osName cwd out).ts_plugin_path.isAbs = out.isAbs ∧
      (computeConfig osName cwd out).grpc_plugin_path.isAbs = out.isAbs) := by
  refine ⟨resolve_isAbs _ _, resolve_isAbs _ _, ?_, ?_⟩
  · intro h
    subst h
    constructor <;> simp [computeConfig, extend_paths, resolve_isAbs]
  · intro h
    constructor <;> simp [computeConfig, extend_paths, h, joinpath]

/-- C3 amended, witness at a concrete input: on host `nt` with a relative
output root the TypeScript plugin path is absolute. -/
theorem absolute_paths_amended_witness :
    (computeConfig "nt" ["home"] (PyPath.mk false ["proj"])).ts_plugin_path.isAbs
      = true :=
  ((absolute_paths_amended "nt" ["home"] (PyPath.mk false ["proj"])).2.2.1 rfl).1

/-- C5: on host `nt` both plugin paths end in the plain plugin name with
`.cmd` appended; on any other host both plugin paths are exactly the
constructed, unsuffixed `outputRoot/node_modules/.bin/<name>` paths. -/
theorem plugin_cmd_suffix (osName : String) (cwd : List String) (out : PyPath) :
    lastNameOf (computeConfig "nt" cwd out).ts_plugin_path = "protoc-gen-ts.cmd" ∧
    lastNameOf (computeConfig "nt" cwd out).grpc_plugin_path =
      "grpc_tools_node_protoc_plugin.cmd" ∧
    (osName ≠ "nt" →
      (computeConfig osName cwd out).ts_plugin_path =
        PyPath.mk out.isAbs (out.parts ++ ["node_modules", ".bin", "protoc-gen-ts"]) ∧
      (computeConfig osName cwd out).grpc_plugin_path =
        PyPath.mk out.isAbs
          (out.parts ++ ["node_modules", ".bin", "grpc_tools_node_protoc_plugin"])) := by
  refine ⟨?_, ?_, ?_⟩
  · have h1 : (computeConfig "nt" cwd out).ts_plugin_path =
        resolve cwd (with_suffix (PyPath.mk out.isAbs
          (((out.parts ++ ["node_modules"]) ++ [".bin"]) ++ ["protoc-gen-ts"])) ".cmd") :=
      rfl
    rw [h1, with_suffix_concat, py_stem_ts, lastNameOf_resolve_concat]
    decide
  · have h2 : (computeConfig "nt" cwd out).grpc_plugin_path =
        resolve cwd (with_suffix (PyPath.mk out.isAbs
          (((out.parts ++ ["node_modules"]) ++ [".bin"]) ++
            ["grpc_tools_node_protoc_plugin"])) ".cmd") :=
      rfl
    rw [h2, with_suffix_concat, py_stem_grpc, lastNameOf_resolve_concat]
    decide
  · intro h
    constructor <;> simp [computeConfig, extend_paths, h, joinpath]

/-- C5 witness: on POSIX the TypeScript plugin path is the unsuffixed
constructed path, and on `nt` the final name component is `.cmd`-suffixed. -/
theorem plugin_cmd_suffix_witness :
    lastNameOf (computeConfig "nt" ["home"] (PyPath.mk true ["proj"])).ts_plugin_path
      = "protoc-gen-ts.cmd" ∧
    (computeConfig "posix" ["home"] (PyPath.mk true ["proj"])).ts_plugin_path =
      PyPath.mk true (["proj"] ++ ["node_modules", ".bin", "protoc-gen-ts"]) :=
  ⟨(plugin_cmd_suffix "posix" ["home"] (PyPath.mk true ["proj"])).1,
    ((plugin_cmd_suffix "posix" ["home"] (PyPath.mk true ["proj"])).2.2
      (by decide)).1⟩

/-- C10: `extend_paths` preserves the length and element order of its input
(element `i` of the output comes from element `i` of the input), and on every
non-Windows host it returns the input list unchanged — in particular without
resolving the paths to absolute form. -/
theorem extend_paths_length_and_identity (osName : String) (cwd : List String)
    (l : List PyPath) :
    (extend_paths osName cwd l).length = l.length ∧
    (osName ≠ "nt" → extend_paths osName cwd l = l) ∧
    (∀ i : Nat, (extend_paths osName cwd l)[i]? =
      if osName = "nt" then l[i]?.map (fun p => resolve cwd (with_suffix p ".cmd"))
      else l[i]?) := by
  unfold extend_paths
  by_cases h : osName = "nt" <;> simp [h]

/-- C10 witness: on POSIX, a one-element list keeps its length and comes back
unchanged even though the path is relative. -/
theorem extend_paths_length_and_identity_witness :
    (extend_paths "posix" ["home"] [PyPath.mk false ["proj"]]).length =
      [PyPath.mk false ["proj"]].length ∧
    extend_paths "posix" ["home"] [PyPath.mk false ["proj"]] =
      [PyPath.mk false ["proj"]] :=
  ⟨(extend_paths_length_and_identity "posix" ["home"] [PyPath.mk false ["proj"]]).1,
    (extend_paths_length_and_identity "posix" ["home"] [PyPath.mk false ["proj"]]).2.1
      (by decide)⟩

/-- C2: when the compiler subprocess exits non-zero, the resulting
`CalledProcessError` is caught, its details are printed, `main` returns
normally (no exception escapes), and the script's own exit status is 0. -/
theorem compiler_failure_swallowed_exit_zero (env : Env) (out : PyPath) (rc : Int)
    (hperm : env.mkdirPermitted = true)
    (hcall : env.call = CallOutcome.calledProcessError rc) :
    (main env out).exc = none ∧
    Event.print
        (calledProcessErrorMessage rc (computeConfig env.osName env.cwd out).argv)
      ∈ (main env out).trace ∧
    scriptExitCode env out = 0 := by
  simp [main, scriptExitCode, hperm, hcall, mkdirFS_parents_exist_ok]

/-- C2 witness: concrete run on POSIX with the compiler exiting 1. -/
theorem compiler_failure_swallowed_exit_zero_witness :
    (main (Env.mk "posix" ["home"] [] true (CallOutcome.calledProcessError 1))
      (PyPath.mk true ["proj"])).exc = none ∧
    Event.print
        (calledProcessErrorMessage 1
          (computeConfig "posix" ["home"] (PyPath.mk true ["proj"])).argv)
      ∈ (main (Env.mk "posix" ["home"] [] true (CallOutcome.calledProcessError 1))
          (PyPath.mk true ["proj"])).trace ∧
    scriptExitCode (Env.mk "posix" ["home"] [] true (CallOutcome.calledProcessError 1))
      (PyPath.mk true ["proj"]) = 0 :=
  compiler_failure_swallowed_exit_zero
    (Env.mk "posix" ["home"] [] true (CallOutcome.calledProcessError 1))
    (PyPath.mk true ["proj"]) 1 rfl rfl

/-- C7: `mkdir(parents=True, exist_ok=True)` creates a missing directory
together with every missing ancestor, succeeds without error when the
directory already exists, and in every permitted run of `main` this directory
creation is the first effect — the compiler invocation can only occur at a
strictly later position of the trace. -/
theorem mkdir_parents_exist_ok_before_call (fs : List (List String))
    (p : List String) (env : Env) (out : PyPath)
    (hperm : env.mkdirPermitted = true) :
    (p ∉ fs → ∃ fs', mkdirFS fs p true true = Except.ok fs' ∧ p ∈ fs' ∧
      ∀ q, q <+: p → q ∈ fs') ∧
    (p ∈ fs → mkdirFS fs p true true = Except.ok fs) ∧
    (main env out).trace.head? =
      some (Event.mkdir (computeConfig env.osName env.cwd out).ts_path true true) ∧
    (∀ i a, (main env out).trace[i]? = some (Event.checkCall a) → 1 ≤ i) := by
  refine ⟨?_, ?_, ?_, ?_⟩
  · intro hmem
    refine ⟨fs ++ p.inits, ?_, ?_, ?_⟩
    · rw [mkdirFS_parents_exist_ok, if_neg hmem]
    · exact List.mem_append_right fs ((List.mem_inits p p).2 ⟨[], List.append_nil p⟩)
    · intro q hq
      exact List.mem_append_right fs ((List.mem_inits q p).2 hq)
  · intro hmem
    rw [mkdirFS_parents_exist_ok, if_pos hmem]
  · simp only [main, hperm, mkdirFS_parents_exist_ok]
    cases env.call <;> simp
  · intro i a
    simp only [main, hperm, mkdirFS_parents_exist_ok]
    cases env.call <;> simp <;>
      · cases i with
        | zero => simp
        | succ n => omega

/-- C7 witness: on an empty filesystem the generated-output directory and its
ancestors get created; on a filesystem already holding it, `mkdirFS` succeeds
unchanged; and a concrete run performs the `mkdir` first. -/
theorem mkdir_parents_exist_ok_before_call_witness :
    (["proj", "bin", "ts"] ∈ ([["proj", "bin", "ts"]] : List (List String)) →
      mkdirFS [["proj", "bin", "ts"]] ["proj", "bin", "ts"] true true =
        Except.ok [["proj", "bin", "ts"]]) ∧
    (main (Env.mk "posix" ["home"] [] true CallOutcome.ok)
      (PyPath.mk true ["proj"])).trace.head? =
      some (Event.mkdir
        (computeConfig "posix" ["home"] (PyPath.mk true ["proj"])).ts_path true true) :=
  ⟨(mkdir_parents_exist_ok_before_call [["proj", "bin", "ts"]] ["proj", "bin", "ts"]
      (Env.mk "posix" ["home"] [] true CallOutcome.ok) (PyPath.mk true ["proj"])
      rfl).2.1,
    (mkdir_parents_exist_ok_before_call [["proj", "bin", "ts"]] ["proj", "bin", "ts"]
      (Env.mk "posix" ["home"] [] true CallOutcome.ok) (PyPath.mk true ["proj"])
      rfl).2.2.1⟩

/-- C8: when the filesystem refuses the directory creation, the resulting
error escapes `main` uncaught, the compiler is never invoked (no `checkCall`
event and nothing printed), and the script dies with a non-zero status. -/
theorem mkdir_failure_uncaught_fatal (env : Env) (out : PyPath)
    (hperm : env.mkdirPermitted = false) :
    (main env out).exc = some PyExc.permissionError ∧
    (∀ a, Event.checkCall a ∉ (main env out).trace) ∧
    (∀ m, Event.print m ∉ (main env out).trace) ∧
    scriptExitCode env out = 1 := by
  simp [main, scriptExitCode, hperm]

/-- C8 witness: concrete run with directory creation forbidden. -/
theorem mkdir_failure_uncaught_fatal_witness :
    (main (Env.mk "posix" ["home"] [] false CallOutcome.ok)
      (PyPath.mk true ["proj"])).exc = some PyExc.permissionError ∧
    scriptExitCode (Env.mk "posix" ["home"] [] false CallOutcome.ok)
      (PyPath.mk true ["proj"]) = 1 :=
  ⟨(mkdir_failure_uncaught_fatal (Env.mk "posix" ["home"] [] false CallOutcome.ok)
      (PyPath.mk true ["proj"]) rfl).1,
    (mkdir_failure_uncaught_fatal (Env.mk "posix" ["home"] [] false CallOutcome.ok)
      (PyPath.mk true ["proj"]) rfl).2.2.2⟩

/-- C9: an OS-level failure to spawn the compiler (e.g. executable not found)
is not caught: `main` ends with that exception, nothing is printed, and the
script dies with a non-zero status — whereas, in the same environment, a
non-zero compiler exit (`CalledProcessError`) is the one exception that is
caught and lets `main` return normally. -/
theorem spawn_failure_uncaught (env : Env) (out : PyPath)
    (hperm : env.mkdirPermitted = true) (hcall : env.call = CallOutcome.osError) :
    (main env out).exc = some PyExc.osError ∧
    (∀ m, Event.print m ∉ (main env out).trace) ∧
    scriptExitCode env out = 1 ∧
    (∀ rc : Int,
      (main (Env.mk env.osName env.cwd env.fs env.mkdirPermitted
        (CallOutcome.calledProcessError rc)) out).exc = none) := by
  refine ⟨?_, ?_, ?_, ?_⟩ <;>
    simp [main, scriptExitCode, hperm, hcall, mkdirFS_parents_exist_ok]

/-- C9 witness: concrete run where spawning the compiler fails. -/
theorem spawn_failure_uncaught_witness :
    (main (Env.mk "posix" ["home"] [] true CallOutcome.osError)
      (PyPath.mk true ["proj"])).exc = some PyExc.osError ∧
    scriptExitCode (Env.mk "posix" ["home"] [] true CallOutcome.osError)
      (PyPath.mk true ["proj"]) = 1 :=
  ⟨(spawn_failure_uncaught (Env.mk "posix" ["home"] [] true CallOutcome.osError)
      (PyPath.mk true ["proj"]) rfl rfl).1,
    (spawn_failure_uncaught (Env.mk "posix" ["home"] [] true CallOutcome.osError)
      (PyPath.mk true ["proj"]) rfl rfl).2.2.1⟩

end MunkeyBuild
